import Mathlib

/-!
Shallow embedding of the transit backend cache-configuration code:
`src/builtin/logical/transit/backend.go` (initializeCache, invalidate) and
`src/builtin/logical/transit/path_cache_config.go` (pathCacheConfigWrite,
pathCacheConfigRead).

The `keysutil.LockManager` lives in a package that is not part of this
repository snapshot; its operations used here (GetCacheType, GetCacheSize,
ConvertCacheToSyncmap, ConvertCacheToLRU, the configCacheSize record) are
modelled from the spec, as marked on each definition.  Go `int` is modelled
as `Int`; storage is modelled as a map from keys to get-results, and the
outcome of `req.Storage.Put` is an explicit parameter of the write handler.
-/

namespace Transit

/-- The keysutil.CacheType enum: SyncMap (unlimited), LRU, NotImplemented. -/
inductive CacheType where
  | SyncMap
  | LRU
  | NotImplemented
  deriving DecidableEq, Repr

/-- The live cache state held by the LockManager: the active strategy kind
and its capacity (0 for the unbounded syncmap strategy). -/
structure LiveCache where
  cacheType : CacheType
  size : Int
  deriving DecidableEq, Repr

/-- Modelled from the spec: LockManager.GetCacheType reads the current
strategy kind (spec section 4.3). -/
def GetCacheType (lm : LiveCache) : CacheType := lm.cacheType

/-- Modelled from the spec: LockManager.GetCacheSize reads the current
capacity (spec section 4.3; 0 for the unbounded strategy). -/
def GetCacheSize (lm : LiveCache) : Int := lm.size

/-- Modelled from the spec: LockManager.ConvertCacheToSyncmap replaces the
active strategy with a fresh Unbounded one, whose Capacity() is always 0
(spec sections 4.1 and 4.3). -/
def ConvertCacheToSyncmap (_lm : LiveCache) : LiveCache :=
  { cacheType := CacheType.SyncMap, size := 0 }

/-- Modelled from the spec: LockManager.ConvertCacheToLRU validates
capacity > 0 (else it fails with InvalidConfiguration) and replaces the
active strategy with a fresh BoundedLRU of that capacity; on failure the
previously active strategy remains in effect (spec sections 4.3 and 7). -/
def ConvertCacheToLRU (size : Int) (_lm : LiveCache) : Except String LiveCache :=
  if 0 < size then Except.ok { cacheType := CacheType.LRU, size := size }
  else Except.error "invalid configuration: lru cache size must be greater than zero"

/-- Reachable live cache states: every conversion yields either an unbounded
cache of size 0 or an LRU cache of positive capacity. -/
def ValidLive (lm : LiveCache) : Prop :=
  (lm.cacheType = CacheType.SyncMap ∧ lm.size = 0) ∨
  (lm.cacheType = CacheType.LRU ∧ 0 < lm.size)

instance : DecidablePred ValidLive := fun lm => by
  unfold ValidLive; infer_instance

/-- The persisted configCacheType record, JSON-encodable as a record with
fields cacheType and size, stored under the key config/cache-type. -/
structure ConfigCacheType where
  CacheType : CacheType
  Size : Int
  deriving DecidableEq, Repr

/-- Result of the Go pair (resp, err) returned by a path handler, restricted
to the shapes the two handlers produce: (nil, nil) is plain success;
(ErrorResponse msg, ErrInvalidRequest) is an invalid-request error with a
message; (nil, err) is an internal error carrying err. -/
inductive HandlerResult where
  | success
  | invalidRequest (msg : String)
  | internalErr (msg : String)
  deriving DecidableEq, Repr

/-- Everything observable about one run of pathCacheConfigWrite: the
returned (resp, err) pair, the LockManager state afterwards, how many cache
conversions were invoked, and the record passed to req.Storage.Put
(none when Put was never called). -/
structure WriteOutcome where
  result : HandlerResult
  newLive : LiveCache
  conversions : Nat
  storedRecord : Option ConfigCacheType
  deriving DecidableEq, Repr

/-- The switch on the cache-type field string at the top of
pathCacheConfigWrite. -/
def parseCacheType (cacheTypeStr : String) : CacheType :=
  match cacheTypeStr with
  | "unlimited" => CacheType.SyncMap
  | "lru" => CacheType.LRU
  | _ => CacheType.NotImplemented

/-- The message built by fmt.Sprintf with percent-q for an unknown
cache-type (exact for type strings without escape-worthy characters). -/
def errUnknownCacheType (cacheTypeStr : String) : String :=
  "unknown cache-type \"" ++ cacheTypeStr ++ "\""

/-- The fixed invalid-request message for an lru request without a positive
size. -/
def errLruSizeRequired : String :=
  "for lru cache-type, cache-size must be specified and be greater than zero"

/-- The errwrap.Wrapf context put around a failed lru conversion. -/
def errLruConversionFailed (e : String) : String :=
  "failed to convert cache-type to lru: " ++ e

/-- The tail of pathCacheConfigWrite after a successful conversion:
logical.StorageEntryJSON on the small configCacheType record cannot fail,
then req.Storage.Put runs with outcome putErr. -/
def storeStep (lm2 : LiveCache) (convs : Nat) (ct : CacheType) (sz : Int)
    (putErr : Option String) : WriteOutcome :=
  match putErr with
  | some e =>
      { result := HandlerResult.internalErr e, newLive := lm2,
        conversions := convs, storedRecord := some ⟨ct, sz⟩ }
  | none =>
      { result := HandlerResult.success, newLive := lm2,
        conversions := convs, storedRecord := some ⟨ct, sz⟩ }

/-- pathCacheConfigWrite from path_cache_config.go.  The conversion to LRU
is the missing keysutil code, so it is passed in as convLRU; when it fails
the handler returns before the store step and the LockManager keeps its
previous strategy (the spec section 7 contract of the missing code).  The
two sequential conversion ifs of the Go body test mutually exclusive
conditions, rendered here as one case split; putErr is the outcome
req.Storage.Put would produce. -/
def pathCacheConfigWrite (convLRU : Int → LiveCache → Except String LiveCache)
    (cacheTypeStr : String) (cacheSize : Int) (lm : LiveCache)
    (putErr : Option String) : WriteOutcome :=
  let cacheType := parseCacheType cacheTypeStr
  if cacheType = CacheType.NotImplemented then
    { result := HandlerResult.invalidRequest (errUnknownCacheType cacheTypeStr),
      newLive := lm, conversions := 0, storedRecord := none }
  else if cacheType = CacheType.LRU ∧ cacheSize ≤ 0 then
    { result := HandlerResult.invalidRequest errLruSizeRequired,
      newLive := lm, conversions := 0, storedRecord := none }
  else if cacheType = GetCacheType lm ∧ cacheSize = GetCacheSize lm then
    { result := HandlerResult.success, newLive := lm,
      conversions := 0, storedRecord := none }
  else if cacheType = CacheType.LRU then
    match convLRU cacheSize lm with
    | Except.error e =>
        { result := HandlerResult.internalErr (errLruConversionFailed e),
          newLive := lm, conversions := 1, storedRecord := none }
    | Except.ok lm2 => storeStep lm2 1 cacheType cacheSize putErr
  else if cacheType = CacheType.SyncMap then
    storeStep (ConvertCacheToSyncmap lm) 1 cacheType cacheSize putErr
  else
    storeStep lm 0 cacheType cacheSize putErr

/-- The Data map of the response built by pathCacheConfigRead. -/
structure ReadResponse where
  cache_type : String
  cache_max_size : Int
  deriving DecidableEq, Repr

/-- pathCacheConfigRead from path_cache_config.go: report the live strategy
as a string and the live capacity; it always returns (resp, nil). -/
def pathCacheConfigRead (lm : LiveCache) : ReadResponse :=
  let cacheType : String :=
    match GetCacheType lm with
    | CacheType.SyncMap => "unlimited"
    | CacheType.LRU => "lru"
    | CacheType.NotImplemented => "unknown"
  { cache_type := cacheType, cache_max_size := GetCacheSize lm }

/-- A stored entry, by the JSON content this code can meet: the legacy
configCacheSize record (field Size), the primary configCacheType record
written by the write handler (fields cacheType and size), or an entry whose
DecodeJSON fails with a given error. -/
inductive Entry where
  | cacheSizeRec (n : Int)
  | cacheTypeRec (ct : CacheType) (sz : Int)
  | corrupt (e : String)
  deriving DecidableEq, Repr

/-- Result of one logical.Storage.Get call: a read failure (the Go call
then also yields a nil entry), no entry, or an entry. -/
inductive GetResult where
  | err (e : String)
  | ok (entry : Option Entry)
  deriving DecidableEq, Repr

/-- The storage view a backend reads from, keyed by string. -/
def Storage : Type := String → GetResult

/-- Modelled from the spec: the configCacheSize record holds a single int
field Size (spec section 6); DecodeJSON into it reads that field.  Go JSON
field matching is case-insensitive, so a primary record decodes through its
size field; a corrupt entry reports its decode error. -/
def decodeCacheSize : Entry → Except String Int
  | Entry.cacheSizeRec n => Except.ok n
  | Entry.cacheTypeRec _ sz => Except.ok sz
  | Entry.corrupt e => Except.error e

/-- initializeCache from backend.go: the target size defaults to 0 and is
overridden from the config/cache-size record when Get yields an entry (the
error return of Get is discarded by the code, and a failed Get carries a
nil entry); a decode failure is returned; then size 0 builds the syncmap
cache and any other size builds the LRU cache. -/
def initializeCache (s : Storage) (lm : LiveCache) : Except String LiveCache :=
  let entry : Option Entry :=
    match s "config/cache-size" with
    | GetResult.err _ => none
    | GetResult.ok e => e
  match entry with
  | none => Except.ok (ConvertCacheToSyncmap lm)
  | some ent =>
    match decodeCacheSize ent with
    | Except.error e => Except.error e
    | Except.ok targetSize =>
        if targetSize = 0 then Except.ok (ConvertCacheToSyncmap lm)
        else ConvertCacheToLRU targetSize lm

/-- strings.HasPrefix of Go, on the character sequences of the two
strings. -/
def strHasPfx (s pre : String) : Bool := pre.data.isPrefixOf s.data

/-- strings.TrimPrefix of Go: the string without the leading occurrence of
pre when it starts with pre, otherwise the string unchanged. -/
def strTrimPfx (s pre : String) : String :=
  if strHasPfx s pre then String.mk (s.data.drop pre.data.length) else s

/-- invalidate from backend.go, as the call it makes: for a key starting
with policy/ it hands the trimmed remainder of the key to
LockManager.InvalidatePolicy; for any other key it makes no call. -/
def invalidate (key : String) : Option String :=
  if strHasPfx key "policy/" then some (strTrimPfx key "policy/") else none

/-- Modelled from the spec: LockManager.InvalidatePolicy evicts the cache
entry of the given name, when present, and touches nothing else (spec
section 4.3). -/
def InvalidatePolicy (cache : List String) (name : String) : List String :=
  cache.filter (fun m => !(m == name))

/-- The effect of the invalidate callback on the backend state, taken as
the live cache configuration together with the cached policy names. -/
def applyInvalidate (st : LiveCache × List String) (key : String) :
    LiveCache × List String :=
  match invalidate key with
  | some name => (st.1, InvalidatePolicy st.2 name)
  | none => st

/-- A storage holding only the primary config/cache-type record, with the
content the write handler persists for an LRU cache of capacity 50, and no
legacy config/cache-size record. -/
def storagePrimaryOnly : Storage := fun key =>
  if key = "config/cache-type"
  then GetResult.ok (some (Entry.cacheTypeRec CacheType.LRU 50))
  else GetResult.ok none

/-- A storage on which every read fails. -/
def storageGetFails : Storage := fun _ => GetResult.err "storage failure"

/-- Helper: the record the store step passes to storage is always the
parsed cache type paired with the requested size, whatever Put returns. -/
theorem storeStep_storedRecord (lm2 : LiveCache) (convs : Nat)
    (ct : CacheType) (sz : Int) (putErr : Option String) :
    (storeStep lm2 convs ct sz putErr).storedRecord = some ⟨ct, sz⟩ := by
  cases putErr <;> rfl

/-- C1: the claim is right and the code is wrong.  The startup path never
consults the primary config/cache-type record: with that record present,
describing an LRU cache of capacity 50, and the legacy config/cache-size
record absent, initializeCache still yields the default unbounded cache
instead of restoring the recorded LRU strategy. -/
theorem C1_startup_ignores_primary_record :
    initializeCache storagePrimaryOnly { cacheType := CacheType.SyncMap, size := 0 }
      = Except.ok { cacheType := CacheType.SyncMap, size := 0 } := rfl

/-- C2: a write request whose parsed cache type and requested size equal
the live type and size reported by the LockManager is an idempotent no-op:
success with nil body, live state unchanged, zero conversions, and no
storage write. -/
theorem C2_idempotent_noop (cacheTypeStr : String) (cacheSize : Int)
    (lm : LiveCache) (putErr : Option String)
    (hv : ValidLive lm)
    (ht : parseCacheType cacheTypeStr = GetCacheType lm)
    (hs : cacheSize = GetCacheSize lm) :
    pathCacheConfigWrite ConvertCacheToLRU cacheTypeStr cacheSize lm putErr
      = { result := HandlerResult.success, newLive := lm,
          conversions := 0, storedRecord := none } := by
  simp only [pathCacheConfigWrite]
  unfold GetCacheType at ht
  unfold GetCacheSize at hs
  rcases hv with ⟨h1, h2⟩ | ⟨h1, h2⟩ <;>
    simp [ht, hs, h1, h2, GetCacheType, GetCacheSize]

/-- C2 witness at a concrete live LRU cache of size 10. -/
theorem C2_idempotent_noop_witness :
    pathCacheConfigWrite ConvertCacheToLRU "lru" 10
        { cacheType := CacheType.LRU, size := 10 } none
      = { result := HandlerResult.success,
          newLive := { cacheType := CacheType.LRU, size := 10 },
          conversions := 0, storedRecord := none } :=
  C2_idempotent_noop "lru" 10 { cacheType := CacheType.LRU, size := 10 } none
    (Or.inr ⟨rfl, by decide⟩) rfl rfl

/-- C3: a write request with an unknown cache-type, or with cache-type lru
and a nonpositive size, is rejected with the matching invalid-request
message, and nothing changes: no conversion, no storage write, live state
untouched. -/
theorem C3_invalid_request_rejected (cacheTypeStr : String) (cacheSize : Int)
    (lm : LiveCache) (putErr : Option String)
    (h : parseCacheType cacheTypeStr = CacheType.NotImplemented ∨
         (parseCacheType cacheTypeStr = CacheType.LRU ∧ cacheSize ≤ 0)) :
    pathCacheConfigWrite ConvertCacheToLRU cacheTypeStr cacheSize lm putErr
      = { result := HandlerResult.invalidRequest
            (if parseCacheType cacheTypeStr = CacheType.NotImplemented
             then errUnknownCacheType cacheTypeStr else errLruSizeRequired),
          newLive := lm, conversions := 0, storedRecord := none } := by
  unfold pathCacheConfigWrite
  rcases h with h | ⟨h, hsz⟩
  · simp [h]
  · simp [h, hsz]

/-- C3 witness: the request with cache-type bogus and size 0 is rejected
with the unknown cache-type message and no effect. -/
theorem C3_invalid_request_rejected_witness :
    pathCacheConfigWrite ConvertCacheToLRU "bogus" 0
        { cacheType := CacheType.SyncMap, size := 0 } none
      = { result := HandlerResult.invalidRequest (errUnknownCacheType "bogus"),
          newLive := { cacheType := CacheType.SyncMap, size := 0 },
          conversions := 0, storedRecord := none } := by
  have h := C3_invalid_request_rejected "bogus" 0
    { cacheType := CacheType.SyncMap, size := 0 } none (Or.inl rfl)
  simpa using h

/-- C4 is false on the code at this input: a write with cache-type
unlimited and cache-size 77 succeeds and persists a record with strategy
SyncMap and size 77, not size 0. -/
theorem C4_counterexample :
    pathCacheConfigWrite ConvertCacheToLRU "unlimited" 77
        { cacheType := CacheType.LRU, size := 10 } none
      = { result := HandlerResult.success,
          newLive := { cacheType := CacheType.SyncMap, size := 0 },
          conversions := 1,
          storedRecord := some { CacheType := CacheType.SyncMap, Size := 77 } } := rfl

/-- C4 amended: every record the write handler passes to storage carries
the parsed cache type and the requested size verbatim; a record written
with cache-type lru has a positive size, but a record written with
cache-type unlimited keeps whatever size the request carried, which need
not be 0. -/
theorem C4_written_record_shape (cacheTypeStr : String) (cacheSize : Int)
    (lm : LiveCache) (putErr : Option String) (rec : ConfigCacheType)
    (h : (pathCacheConfigWrite ConvertCacheToLRU cacheTypeStr cacheSize lm
            putErr).storedRecord = some rec) :
    rec.CacheType = parseCacheType cacheTypeStr ∧ rec.Size = cacheSize ∧
    (rec.CacheType = CacheType.LRU → 0 < rec.Size) := by
  rcases hp : parseCacheType cacheTypeStr with _ | _ | _
  · simp [pathCacheConfigWrite, hp] at h
    split_ifs at h with hn
    rw [storeStep_storedRecord] at h
    obtain rfl : rec = ⟨CacheType.SyncMap, cacheSize⟩ :=
      (Option.some_inj.mp h).symm
    simp [hp]
  · simp [pathCacheConfigWrite, hp] at h
    split_ifs at h with hle hn
    have hX : ConvertCacheToLRU cacheSize lm
        = Except.ok { cacheType := CacheType.LRU, size := cacheSize } := by
      unfold ConvertCacheToLRU
      rw [if_pos (by omega)]
    rw [hX] at h
    rw [show (match (Except.ok { cacheType := CacheType.LRU, size := cacheSize } :
            Except String LiveCache) with
          | Except.error e =>
              ({ result := HandlerResult.internalErr (errLruConversionFailed e),
                 newLive := lm, conversions := 1,
                 storedRecord := none } : WriteOutcome)
          | Except.ok lm2 =>
              storeStep lm2 1 CacheType.LRU cacheSize putErr)
        = storeStep { cacheType := CacheType.LRU, size := cacheSize } 1
            CacheType.LRU cacheSize putErr from rfl] at h
    rw [storeStep_storedRecord] at h
    obtain rfl : rec = ⟨CacheType.LRU, cacheSize⟩ :=
      (Option.some_inj.mp h).symm
    refine ⟨by simp [hp], rfl, fun _ => ?_⟩
    show (0 : Int) < cacheSize
    omega
  · simp [pathCacheConfigWrite, hp] at h

/-- C4 amended witness: the record written for an lru request of size 5
has cache type lru, size 5, and a positive size. -/
theorem C4_written_record_shape_witness :
    (⟨CacheType.LRU, 5⟩ : ConfigCacheType).CacheType = parseCacheType "lru" ∧
    (⟨CacheType.LRU, 5⟩ : ConfigCacheType).Size = 5 ∧
    ((⟨CacheType.LRU, 5⟩ : ConfigCacheType).CacheType = CacheType.LRU →
      0 < (⟨CacheType.LRU, 5⟩ : ConfigCacheType).Size) :=
  C4_written_record_shape "lru" 5 { cacheType := CacheType.SyncMap, size := 0 }
    none ⟨CacheType.LRU, 5⟩ rfl

/-- C5: when the conversion to an LRU cache fails during a write, the
handler returns the conversion error wrapped with the failed-conversion
context, passes no record to storage, and the previously active strategy
stays in effect. -/
theorem C5_conversion_failure_clean
    (convLRU : Int → LiveCache → Except String LiveCache)
    (cacheSize : Int) (lm : LiveCache) (putErr : Option String) (e : String)
    (hsz : 0 < cacheSize)
    (hnoop : ¬(CacheType.LRU = GetCacheType lm ∧ cacheSize = GetCacheSize lm))
    (hconv : convLRU cacheSize lm = Except.error e) :
    pathCacheConfigWrite convLRU "lru" cacheSize lm putErr
      = { result := HandlerResult.internalErr (errLruConversionFailed e),
          newLive := lm, conversions := 1, storedRecord := none } := by
  simp only [pathCacheConfigWrite, parseCacheType, true_and, if_true]
  rw [if_neg (show ¬cacheSize ≤ 0 by omega), if_neg hnoop, hconv]
  simp

/-- C5 witness: a conversion that always fails makes the write with lru
and size 5 return the wrapped error and change nothing. -/
theorem C5_conversion_failure_clean_witness :
    pathCacheConfigWrite (fun _ _ => Except.error "construction failed")
        "lru" 5 { cacheType := CacheType.SyncMap, size := 0 } none
      = { result := HandlerResult.internalErr
            (errLruConversionFailed "construction failed"),
          newLive := { cacheType := CacheType.SyncMap, size := 0 },
          conversions := 1, storedRecord := none } :=
  C5_conversion_failure_clean (fun _ _ => Except.error "construction failed")
    5 { cacheType := CacheType.SyncMap, size := 0 } none "construction failed"
    (by decide) (by decide) rfl

/-- C6: for every positive capacity, writing cache-config lru with that
size succeeds and a following read reports cache_type lru with
cache_max_size equal to that capacity. -/
theorem C6_lru_roundtrip (c : Int) (lm : LiveCache) (hc : 0 < c) :
    (pathCacheConfigWrite ConvertCacheToLRU "lru" c lm none).result
        = HandlerResult.success ∧
    pathCacheConfigRead
        (pathCacheConfigWrite ConvertCacheToLRU "lru" c lm none).newLive
      = { cache_type := "lru", cache_max_size := c } := by
  simp only [pathCacheConfigWrite, parseCacheType, true_and, if_true]
  rw [if_neg (show ¬c ≤ 0 by omega)]
  by_cases hnoop : CacheType.LRU = GetCacheType lm ∧ c = GetCacheSize lm
  · rw [if_pos hnoop]
    obtain ⟨h1, h2⟩ := hnoop
    simp [pathCacheConfigRead, ← h1, ← h2]
  · rw [if_neg hnoop, ConvertCacheToLRU, if_pos hc]
    simp [storeStep, pathCacheConfigRead, GetCacheType, GetCacheSize]

/-- C6 witness at capacity 50 from an unbounded live cache. -/
theorem C6_lru_roundtrip_witness :
    (pathCacheConfigWrite ConvertCacheToLRU "lru" 50
        { cacheType := CacheType.SyncMap, size := 0 } none).result
        = HandlerResult.success ∧
    pathCacheConfigRead
        (pathCacheConfigWrite ConvertCacheToLRU "lru" 50
          { cacheType := CacheType.SyncMap, size := 0 } none).newLive
      = { cache_type := "lru", cache_max_size := 50 } :=
  C6_lru_roundtrip 50 { cacheType := CacheType.SyncMap, size := 0 } (by decide)

/-- C7: on every reachable live cache state the read handler succeeds and
reports cache_type unlimited with cache_max_size 0 for the syncmap
strategy, and cache_type lru with cache_max_size equal to the live
capacity for the LRU strategy. -/
theorem C7_read_reports_live (lm : LiveCache) (hv : ValidLive lm) :
    ((pathCacheConfigRead lm).cache_type = "unlimited" ∧
      lm.cacheType = CacheType.SyncMap ∧
      (pathCacheConfigRead lm).cache_max_size = 0) ∨
    ((pathCacheConfigRead lm).cache_type = "lru" ∧
      lm.cacheType = CacheType.LRU ∧
      (pathCacheConfigRead lm).cache_max_size = lm.size) := by
  rcases hv with ⟨h1, h2⟩ | ⟨h1, h2⟩
  · left
    simp [pathCacheConfigRead, GetCacheType, GetCacheSize, h1, h2]
  · right
    simp [pathCacheConfigRead, GetCacheType, GetCacheSize, h1]

/-- C7 witness at the live LRU cache of capacity 10. -/
theorem C7_read_reports_live_witness :
    ((pathCacheConfigRead { cacheType := CacheType.LRU, size := 10 }).cache_type
        = "unlimited" ∧
      LiveCache.cacheType { cacheType := CacheType.LRU, size := 10 }
        = CacheType.SyncMap ∧
      (pathCacheConfigRead { cacheType := CacheType.LRU, size := 10 }).cache_max_size
        = 0) ∨
    ((pathCacheConfigRead { cacheType := CacheType.LRU, size := 10 }).cache_type
        = "lru" ∧
      LiveCache.cacheType { cacheType := CacheType.LRU, size := 10 }
        = CacheType.LRU ∧
      (pathCacheConfigRead { cacheType := CacheType.LRU, size := 10 }).cache_max_size
        = LiveCache.size { cacheType := CacheType.LRU, size := 10 }) :=
  C7_read_reports_live { cacheType := CacheType.LRU, size := 10 }
    (Or.inr ⟨rfl, by decide⟩)

/-- C8 is false on the code at this input: when the startup read of the
config record fails, initializeCache does not propagate the storage error;
it succeeds with the default unbounded cache. -/
theorem C8_counterexample :
    initializeCache storageGetFails { cacheType := CacheType.SyncMap, size := 0 }
      = Except.ok { cacheType := CacheType.SyncMap, size := 0 } := rfl

/-- C8 amended: a decode failure of the startup config record is
propagated by initializeCache, and a storage-write failure in the write
handler is propagated as the returned error; only the error return of the
startup Get itself is discarded. -/
theorem C8_errors_propagated (s : Storage) (lm : LiveCache) (e : String)
    (cacheSize : Int) (lm2 : LiveCache) (pe : String)
    (hdec : s "config/cache-size" = GetResult.ok (some (Entry.corrupt e)))
    (hsz : 0 < cacheSize)
    (hnoop : ¬(CacheType.LRU = GetCacheType lm2 ∧ cacheSize = GetCacheSize lm2)) :
    initializeCache s lm = Except.error e ∧
    (pathCacheConfigWrite ConvertCacheToLRU "lru" cacheSize lm2
        (some pe)).result = HandlerResult.internalErr pe := by
  constructor
  · unfold initializeCache
    rw [hdec]
    rfl
  · simp only [pathCacheConfigWrite, parseCacheType, true_and, if_true]
    rw [if_neg (show ¬cacheSize ≤ 0 by omega), if_neg hnoop,
      ConvertCacheToLRU, if_pos hsz]
    simp [storeStep]

/-- C8 amended witness: a corrupt stored record fails startup with its
decode error, and a failing Put fails the lru write with the Put error. -/
theorem C8_errors_propagated_witness :
    initializeCache
        (fun _ => GetResult.ok (some (Entry.corrupt "bad json")))
        { cacheType := CacheType.SyncMap, size := 0 }
      = Except.error "bad json" ∧
    (pathCacheConfigWrite ConvertCacheToLRU "lru" 5
        { cacheType := CacheType.SyncMap, size := 0 }
        (some "write failed")).result
      = HandlerResult.internalErr "write failed" :=
  C8_errors_propagated (fun _ => GetResult.ok (some (Entry.corrupt "bad json")))
    { cacheType := CacheType.SyncMap, size := 0 } "bad json" 5
    { cacheType := CacheType.SyncMap, size := 0 } "write failed"
    rfl (by decide) (by decide)

/-- C9: for every key of the form policy/ followed by a name, the
invalidation callback invokes the LockManager policy invalidation with
exactly that name, the key without its leading policy/ marker. -/
theorem C9_invalidate_policy_name (s : String) :
    invalidate ("policy/" ++ s) = some s := by
  have hd : ("policy/" ++ s).data = "policy/".data ++ s.data :=
    String.data_append _ _
  have hp : ("policy/".data.isPrefixOf ("policy/" ++ s).data) = true := by
    rw [hd, List.isPrefixOf_iff_prefix]
    exact List.prefix_append _ _
  unfold invalidate strTrimPfx strHasPfx
  rw [hp, if_pos rfl, if_pos rfl, hd, List.drop_left]

/-- C9 witness at the key policy/foo. -/
theorem C9_invalidate_policy_name_witness :
    invalidate "policy/foo" = some "foo" :=
  C9_invalidate_policy_name "foo"

/-- C10: for every key that does not start with policy/, the invalidation
callback makes no LockManager call and leaves the backend state, live
configuration and cached names alike, unchanged. -/
theorem C10_non_policy_key_no_effect (st : LiveCache × List String)
    (key : String) (h : strHasPfx key "policy/" = false) :
    invalidate key = none ∧ applyInvalidate st key = st := by
  have h1 : invalidate key = none := by
    unfold invalidate
    rw [h]
    rfl
  exact ⟨h1, by unfold applyInvalidate; rw [h1]⟩

/-- C10 witness at the key archive/foo. -/
theorem C10_non_policy_key_no_effect_witness :
    invalidate "archive/foo" = none ∧
    applyInvalidate ({ cacheType := CacheType.SyncMap, size := 0 }, ["k"])
        "archive/foo"
      = ({ cacheType := CacheType.SyncMap, size := 0 }, ["k"]) :=
  C10_non_policy_key_no_effect
    ({ cacheType := CacheType.SyncMap, size := 0 }, ["k"]) "archive/foo"
    (by decide)

end Transit
